import Mathlib

/-!
Verification of the study-plan application core (src/streamlit_app.py).

The Python code is shallowly embedded: strings are lists of characters at
the primitive level (so that every Python string operation used by the
source has a transparent, executable Lean counterpart), exceptions are an
explicit sum type, and the external LLM endpoint is an oracle parameter.
Loops that Python bounds by a numeric quantity are written with a fuel
argument equal to that quantity, so every definition is structurally
recursive and computable by the kernel.
-/

/-- Python exception values relevant to this program, carrying str(e). -/
inductive PyExc where
  | valueError (m : String)
  | nameError (m : String)
  | keyError (m : String)
  | apiError (m : String)
deriving DecidableEq

/-- str(e) of an exception. -/
def PyExc.msg : PyExc → String
  | .valueError m => m
  | .nameError m => m
  | .keyError m => m
  | .apiError m => m

instance {ε α : Type} [DecidableEq ε] [DecidableEq α] : DecidableEq (Except ε α) := fun a b =>
  match a, b with
  | .error e1, .error e2 =>
    if h : e1 = e2 then .isTrue (by rw [h]) else .isFalse (fun hh => h (Except.error.inj hh))
  | .error _, .ok _ => .isFalse (fun hh => Except.noConfusion hh)
  | .ok _, .error _ => .isFalse (fun hh => Except.noConfusion hh)
  | .ok a1, .ok a2 =>
    if h : a1 = a2 then .isTrue (by rw [h]) else .isFalse (fun hh => h (Except.ok.inj hh))

/-- Python str.startswith on character lists: the first list is the candidate
head of the second. -/
def list_starts : List Char → List Char → Bool
  | [], _ => true
  | _ :: _, [] => false
  | a :: ns, b :: hs => a == b && list_starts ns hs

/-- Python substring membership (the in operator) on character lists:
needle occurs contiguously in the haystack. -/
def list_has_sub (needle : List Char) : List Char → Bool
  | [] => list_starts needle []
  | a :: t => list_starts needle (a :: t) || list_has_sub needle t

/-- Characters removed by Python str.strip with no argument. -/
def is_py_space (c : Char) : Bool :=
  c == ' ' || c == '\t' || c == '\n' || c == '\r' || c == '\x0b' || c == '\x0c'

/-- Python str.strip with no argument: drop whitespace from both ends. -/
def py_strip (l : List Char) : List Char :=
  ((l.dropWhile is_py_space).reverse.dropWhile is_py_space).reverse

/-- Python str.split on a single separator character, as used by
response.split(chr): keeps empty fields, and the empty input gives one
empty field. -/
def split_char (c : Char) : List Char → List (List Char)
  | [] => [[]]
  | a :: t =>
    match split_char c t with
    | [] => [[]]
    | h :: r => if a == c then [] :: h :: r else (a :: h) :: r

/-- Python str.split(sep, 1) restricted to what the source reads from it:
the text before and after the first occurrence of sep, or none when sep
does not occur. -/
def split_once (sep : List Char) : List Char → Option (List Char × List Char)
  | [] => none
  | a :: t =>
    if list_starts sep (a :: t) then some ([], (a :: t).drop sep.length)
    else
      match split_once sep t with
      | some (pre, post) => some (a :: pre, post)
      | none => none

/-- Everything after the first colon of the line: line.split(sep, 1)[1]
for sep a colon, with the empty list for the (guarded, unreachable)
colon-free case. -/
def after_first_colon (line : List Char) : List Char :=
  match split_once [':'] line with
  | some (_, post) => post
  | none => []

/-- line.split(sep)[1] for sep a colon: the field between the first and the
second colon, or everything after the first colon when there is no second. -/
def second_colon_field (line : List Char) : List Char :=
  match split_once [':'] (after_first_colon line) with
  | some (pre2, _) => pre2
  | none => after_first_colon line

/-!
query_gemini_api (src/streamlit_app.py lines 36-50).

The external call model.generate_content(prompt) is an oracle
op : Nat -> Except PyExc (Option String), indexed by the attempt number:
an exception, or a response whose text field is none (falsy response or
missing text) or a string (empty string being falsy as in Python).

The module imports datetime but never imports time, so the expression
time.sleep(2 ** attempt) on line 48 raises NameError (whose Python message
quotes the word time) the moment it is evaluated. time_sleep below
models exactly that; its success branch is kept so that the control flow
of the source is preserved verbatim.
-/

/-- Modelled lookup of time.sleep in a module that never imports time:
raises NameError before any sleeping can happen. -/
def time_sleep (_secs : Nat) : Except PyExc Unit :=
  .error (.nameError "name time is not defined")

/-- Result of query_gemini_api together with an execution trace: how many
times generate_content was invoked, and how many sleeps actually completed. -/
structure QueryOutcome where
  result : Except PyExc String
  attempts : Nat
  sleeps : Nat
deriving DecidableEq

/-- The terminal message f-string of line 47. -/
def wrapMsg (max_retries : Nat) (e : PyExc) : String :=
  "Error querying Gemini API after " ++ toString max_retries ++ " attempts: " ++ e.msg

/-- The for attempt in range(max_retries) loop of query_gemini_api.
fuel is the number of remaining iterations (initially max_retries) and
attempt the current loop index; the loop ends by returning a truthy
response text, raising, or falling through to the final raise of line 50. -/
def query_loop (op : Nat → Except PyExc (Option String)) (max_retries : Nat) :
    Nat → Nat → QueryOutcome
  | 0, _ =>
    { result := .error (.valueError "No valid response from the Gemini API"),
      attempts := 0, sleeps := 0 }
  | fuel + 1, attempt =>
    match op attempt with
    | .ok (some t) =>
      if t = "" then
        { result := (query_loop op max_retries fuel (attempt + 1)).result,
          attempts := (query_loop op max_retries fuel (attempt + 1)).attempts + 1,
          sleeps := (query_loop op max_retries fuel (attempt + 1)).sleeps }
      else { result := .ok t, attempts := 1, sleeps := 0 }
    | .ok none =>
      { result := (query_loop op max_retries fuel (attempt + 1)).result,
        attempts := (query_loop op max_retries fuel (attempt + 1)).attempts + 1,
        sleeps := (query_loop op max_retries fuel (attempt + 1)).sleeps }
    | .error e =>
      if attempt = max_retries - 1 then
        { result := .error (.valueError (wrapMsg max_retries e)), attempts := 1, sleeps := 0 }
      else
        match time_sleep (2 ^ attempt) with
        | .error e2 => { result := .error e2, attempts := 1, sleeps := 0 }
        | .ok _ =>
          { result := (query_loop op max_retries fuel (attempt + 1)).result,
            attempts := (query_loop op max_retries fuel (attempt + 1)).attempts + 1,
            sleeps := (query_loop op max_retries fuel (attempt + 1)).sleeps + 1 }

/-- query_gemini_api(prompt, api_key, max_retries): the prompt and api key
are absorbed into the oracle op; the source calls it with the default
max_retries = 3. -/
def query_gemini_api (op : Nat → Except PyExc (Option String)) (max_retries : Nat) :
    QueryOutcome :=
  query_loop op max_retries max_retries 0

/-- A generate_content outcome the loop treats as falsy: no exception, but
a response without usable text (none) or with empty text. -/
def falsyOut (r : Except PyExc (Option String)) : Prop :=
  r = .ok none ∨ r = .ok (some "")

instance (r : Except PyExc (Option String)) : Decidable (falsyOut r) := by
  unfold falsyOut; infer_instance

/-!
generate_study_plan_in_batches (src/streamlit_app.py lines 53-86).

The network is a world oracle: for each prompt string, an attempt-indexed
generate_content behaviour. The while loop decreases total_days by at
least one per iteration, so running it with fuel equal to the initial
total_days reproduces it exactly; the fuel-exhausted case returns the same
state as the loop exit. Alongside the Python return value (the plan, with
the empty list standing for the error path that reports and returns []),
the embedding records the batch requests (current_day, days_to_generate)
issued, in order.
-/

/-- The f-string prompt of lines 60-71, including its leading newline, the
8-space indentation of the triple-quoted block, and the trailing space
after the word student on the first text line. -/
def plan_prompt (course level : String) (current_day days_to_generate : Nat) : String :=
  "\n        Create a " ++ toString days_to_generate ++ "-day course plan for " ++ course ++
    " starting from day " ++ toString current_day ++ " for a " ++ level ++ " level student. \n" ++
  "        Provide a daily topic breakdown in the following format:\n" ++
  "\n" ++
  "        " ++ toString current_day ++ ". Topic 1\n" ++
  "        " ++ toString (current_day + 1) ++ ". Topic 2\n" ++
  "        " ++ toString (current_day + 2) ++ ". Topic 3\n" ++
  "        ...\n" ++
  "        " ++ toString (current_day + days_to_generate - 1) ++ ". Topic " ++
    toString days_to_generate ++ "\n" ++
  "\n" ++
  "        Ensure each topic is concise (1-5 words) and follows a logical progression.\n" ++
  "        "

/-- The list comprehension of line 75: for each line of the response, if
the stripped line is nonempty and the line contains a dot-space, take what
follows the first dot-space, stripped. -/
def parse_topics (response : String) : List String :=
  (split_char '\n' response.data).filterMap fun line =>
    match split_once ['.', ' '] line with
    | some (_, post) => if py_strip line = [] then none else some (String.mk (py_strip post))
    | none => none

/-- Return value of generate_study_plan_in_batches, instrumented with the
list of issued batch requests (current_day, days_to_generate). -/
structure PlanOutcome where
  plan : List String
  batches : List (Nat × Nat)
deriving DecidableEq

/-- The while total_days > 0 loop of lines 58-84. fuel bounds the number
of iterations; the caller passes the initial total_days, which suffices
because each iteration removes min 30 total_days >= 1 days. Any exception
inside the try block (from query_gemini_api, or the ValueError raised on a
topic-count mismatch) hits the except branch, which reports the error and
returns the empty list, discarding all accumulated batches. -/
def plan_go (world : String → Nat → Except PyExc (Option String))
    (course level api_key : String) :
    Nat → Nat → Nat → List String → List (Nat × Nat) → PlanOutcome
  | 0, _, _, pacc, bacc => { plan := pacc, batches := bacc }
  | fuel + 1, total_days, current_day, pacc, bacc =>
    if 0 < total_days then
      match (query_gemini_api
          (world (plan_prompt course level current_day (min 30 total_days))) 3).result with
      | .error _ => { plan := [], batches := bacc ++ [(current_day, min 30 total_days)] }
      | .ok response =>
        if (parse_topics response).length = min 30 total_days then
          plan_go world course level api_key fuel (total_days - min 30 total_days)
            (current_day + min 30 total_days) (pacc ++ parse_topics response)
            (bacc ++ [(current_day, min 30 total_days)])
        else { plan := [], batches := bacc ++ [(current_day, min 30 total_days)] }
    else { plan := pacc, batches := bacc }

/-- generate_study_plan_in_batches(course, total_days, level, api_key):
batch_size = 30, current_day starts at 1, study_plan starts empty. -/
def generate_study_plan_in_batches (world : String → Nat → Except PyExc (Option String))
    (course : String) (total_days : Nat) (level api_key : String) : PlanOutcome :=
  plan_go world course level api_key total_days total_days 1 [] []

/-- The batch partition the loop follows: starting at a given day with a
given number of remaining days, batches of min 30 remaining days each. -/
def batch_schedule_fuel : Nat → Nat → Nat → List (Nat × Nat)
  | 0, _, _ => []
  | fuel + 1, current_day, total_days =>
    if 0 < total_days then
      (current_day, min 30 total_days) ::
        batch_schedule_fuel fuel (current_day + min 30 total_days)
          (total_days - min 30 total_days)
    else []

/-- Batch partition of total_days days starting at current_day. -/
def batch_schedule (current_day total_days : Nat) : List (Nat × Nat) :=
  batch_schedule_fuel total_days current_day total_days

/-!
parse_test_questions (src/streamlit_app.py lines 146-172).

A record under construction is a Python dict with up to four keys; each
field below is none exactly when the corresponding key is absent. Note the
indentation of line 155 in the source: the statement that starts a fresh
record is nested inside if current_question, so a Q line arriving while
current_question is the empty dict changes nothing, and a subsequent
option line evaluates current_question with no options key, raising
KeyError (whose Python message is the quoted key; written here unquoted).
-/

/-- A question record under construction or returned; none marks an absent
dict key. -/
structure PyQuestion where
  question : Option String
  options : Option (List String)
  correct : Option String
  explanation : Option String
deriving DecidableEq

/-- Python truthiness of the record dict: at least one key present. -/
def tqTruthy (q : PyQuestion) : Bool :=
  q.question.isSome || q.options.isSome || q.correct.isSome || q.explanation.isSome

/-- One iteration of the for line loop of lines 149-161, acting on the
already stripped line. -/
def tq_step (qs : List PyQuestion) (cur : PyQuestion) (line : List Char) :
    Except PyExc (List PyQuestion × PyQuestion) :=
  if list_starts ("Q:".data) line then
    if tqTruthy cur then
      .ok ((if cur.options.isSome && cur.correct.isSome then qs ++ [cur] else qs),
        { question := some (String.mk (py_strip (line.drop 2))), options := some [],
          correct := none, explanation := none })
    else .ok (qs, cur)
  else if list_starts ("A)".data) line || list_starts ("B)".data) line ||
      list_starts ("C)".data) line || list_starts ("D)".data) line then
    match cur.options with
    | none => .error (.keyError "options")
    | some os => .ok (qs, { cur with options := some (os ++ [String.mk (py_strip (line.drop 3))]) })
  else if list_starts ("Correct:".data) line then
    .ok (qs, { cur with correct := some (String.mk (py_strip (second_colon_field line))) })
  else if list_starts ("Explanation:".data) line then
    .ok (qs, { cur with explanation := some (String.mk (py_strip (after_first_colon line))) })
  else .ok (qs, cur)

/-- The whole for loop: strip each line, then apply tq_step, propagating
any exception. -/
def tq_go : List (List Char) → List PyQuestion → PyQuestion →
    Except PyExc (List PyQuestion × PyQuestion)
  | [], qs, cur => .ok (qs, cur)
  | l0 :: ls, qs, cur =>
    match tq_step qs cur (py_strip l0) with
    | .error e => .error e
    | .ok (qs2, cur2) => tq_go ls qs2 cur2

/-- The validation filter of lines 167-170: exactly 4 options, and the
correct string is a substring of ABCD of length 1. Records reaching the
filter always carry both keys; the keyless case is written as false (the
Python subscription there is unreachable). -/
def validQ (q : PyQuestion) : Bool :=
  match q.options, q.correct with
  | some os, some c => os.length == 4 && (list_has_sub c.data ("ABCD".data) && c.data.length == 1)
  | _, _ => false

/-- parse_test_questions(response): run the loop from an empty record,
apply the end-of-input flush of lines 163-164, then the filter. -/
def parse_test_questions (response : String) : Except PyExc (List PyQuestion) :=
  match tq_go (split_char '\n' response.data) []
      { question := none, options := none, correct := none, explanation := none } with
  | .error e => .error e
  | .ok st =>
    .ok ((if tqTruthy st.2 && st.2.options.isSome && st.2.correct.isSome
      then st.1 ++ [st.2] else st.1).filter validQ)

/-!
parse_flashcards (src/streamlit_app.py lines 188-201).
-/

/-- A flashcard dict; none marks an absent key. -/
structure Flashcard where
  front : Option String
  back : Option String
deriving DecidableEq

/-- Python truthiness of the card dict. -/
def fcTruthy (c : Flashcard) : Bool :=
  c.front.isSome || c.back.isSome

/-- One iteration of the for line loop of lines 192-198: a Front line
flushes any non-empty current card (complete or not) and starts a fresh
one; a Back line sets the back key of the current card. Lines are not
stripped before the prefix tests. -/
def fc_step (st : List Flashcard × Flashcard) (line : List Char) : List Flashcard × Flashcard :=
  if list_starts ("Front:".data) line then
    ((if fcTruthy st.2 then st.1 ++ [st.2] else st.1),
      { front := some (String.mk (py_strip (line.drop 6))), back := none })
  else if list_starts ("Back:".data) line then
    (st.1, { st.2 with back := some (String.mk (py_strip (line.drop 5))) })
  else st

/-- The end-of-input flush of lines 199-200: append the current card if it
is non-empty, complete or not. -/
def fc_finish (st : List Flashcard × Flashcard) : List Flashcard :=
  if fcTruthy st.2 then st.1 ++ [st.2] else st.1

/-- parse_flashcards(response): strip the whole response, split into
lines, fold the loop from an empty card, flush at end of input. -/
def parse_flashcards (response : String) : List Flashcard :=
  fc_finish ((split_char '\n' (py_strip response.data)).foldl fc_step
    ([], { front := none, back := none }))


/-!
Concrete worlds and operations used to instantiate the claims.
-/

/-- An operation that always fails with a quota-style message. -/
def alwaysQuotaErr : Nat → Except PyExc (Option String) :=
  fun _ => .error (.apiError "quota exceeded")

/-- An operation whose first two attempts return falsy responses and whose
third raises. -/
def falsyThenErr : Nat → Except PyExc (Option String) :=
  fun j => if j < 2 then .ok none else .error (.apiError "boom")

/-- An operation with one falsy attempt followed by an exception. -/
def oneFalsyThenErr : Nat → Except PyExc (Option String) :=
  fun j => if j = 0 then .ok none else .error (.apiError "x")

/-- The question record parsed from the kept concrete input of C6. -/
def keptQuestion : PyQuestion :=
  { question := some "q2", options := some ["a", "b", "c", "d"], correct := some "B",
    explanation := some "because" }

/-- A world that always fails with an API error. -/
def failWorld : String → Nat → Except PyExc (Option String) :=
  fun _ _ => .error (.apiError "boom")

/-- A well-formed response: lines numbered from start, one short topic per
line, for the requested number of days. -/
def numbered (start n : Nat) : String :=
  String.intercalate "\n"
    ((List.range n).map (fun i => toString (start + i) ++ ". T" ++ toString (start + i)))

/-- A world that answers each of the three prompts of a 65-day generation
for course C at level B with a well-formed response of the requested
shape. -/
def goodWorld : String → Nat → Except PyExc (Option String) := fun p _ =>
  if p = plan_prompt "C" "B" 1 30 then .ok (some (numbered 1 30))
  else if p = plan_prompt "C" "B" 31 30 then .ok (some (numbered 31 30))
  else if p = plan_prompt "C" "B" 61 5 then .ok (some (numbered 61 5))
  else .error (.apiError "unexpected prompt")

set_option maxRecDepth 10000

/-!
Lemmas about the retry loop.
-/

/-- No execution of the loop ever completes a sleep: the only call site of
time.sleep raises NameError. -/
theorem query_loop_sleeps (op : Nat → Except PyExc (Option String)) (mr : Nat) :
    ∀ fuel attempt, (query_loop op mr fuel attempt).sleeps = 0 := by
  intro fuel
  induction fuel with
  | zero => intro a; rfl
  | succ n ih =>
    intro a
    rw [query_loop]
    cases hop : op a with
    | ok resp =>
      cases resp with
      | some t =>
        by_cases ht : t = ""
        · simp [ht, ih]
        · simp [ht]
      | none => simp [ih]
    | error e =>
      by_cases hfin : a = mr - 1
      · simp [hfin]
      · simp [hfin, time_sleep]

/-- Skipping a run of falsy attempts: each one consumes an iteration and
one generate_content call, without sleeping, and the loop continues. -/
theorem query_loop_skip (op : Nat → Except PyExc (Option String)) (mr : Nat) :
    ∀ d fuel attempt, (∀ j, attempt ≤ j → j < attempt + d → falsyOut (op j)) → d ≤ fuel →
    query_loop op mr fuel attempt =
      { result := (query_loop op mr (fuel - d) (attempt + d)).result,
        attempts := (query_loop op mr (fuel - d) (attempt + d)).attempts + d,
        sleeps := (query_loop op mr (fuel - d) (attempt + d)).sleeps } := by
  intro d
  induction d with
  | zero => intro fuel a _ _; simp
  | succ n ih =>
    intro fuel a hfal hle
    cases fuel with
    | zero => omega
    | succ f =>
      have h0 : falsyOut (op a) := hfal a (Nat.le_refl a) (by omega)
      have hrec := ih f (a + 1) (fun j hj1 hj2 => hfal j (by omega) (by omega)) (by omega)
      have e1 : f - n = f + 1 - (n + 1) := by omega
      have e2 : a + 1 + n = a + (n + 1) := by omega
      rw [e1, e2] at hrec
      rcases h0 with h0 | h0 <;>
      · rw [query_loop, h0]
        simp only [hrec]
        simp [QueryOutcome.mk.injEq]
        omega

/-- One iteration when the current attempt raises: on the final attempt
the error is wrapped into the terminal ValueError of line 47; on any other
attempt the backoff sleep of line 48 raises NameError. -/
theorem query_err_step (op : Nat → Except PyExc (Option String)) (mr fuel a : Nat) (e : PyExc)
    (hop : op a = .error e) (hf : 0 < fuel) :
    query_loop op mr fuel a =
      if a = mr - 1 then
        { result := .error (.valueError (wrapMsg mr e)), attempts := 1, sleeps := 0 }
      else
        { result := .error (.nameError "name time is not defined"), attempts := 1, sleeps := 0 } := by
  cases fuel with
  | zero => omega
  | succ f =>
    rw [query_loop, hop]
    by_cases hfin : a = mr - 1
    · simp [hfin]
    · simp [hfin, time_sleep]

/-- C2 counterexample: the claimed quota classification does not exist. A
call whose operation always fails with a quota message is not retried: it
makes exactly one generate_content call and escapes with NameError, the
same way a call failing with any other message does, and neither failure
is propagated as the original error. -/
theorem c2_counterexample :
    query_gemini_api (fun _ => .error (.apiError "429 Resource has been exhausted (check quota)")) 3 =
      { result := .error (.nameError "name time is not defined"), attempts := 1, sleeps := 0 } ∧
    query_gemini_api (fun _ => .error (.apiError "400 invalid argument")) 3 =
      { result := .error (.nameError "name time is not defined"), attempts := 1, sleeps := 0 } := by
  exact ⟨by decide, by decide⟩

/-- C2 (amended): query_gemini_api applies no message-based retryability
classification. Whatever exception the first attempt raises, quota-related
or not, the wrapper with max_retries at least 2 makes exactly one attempt
and fails with NameError from the unimported time module, never
propagating the original error and never consuming further retries; with
max_retries equal to 1 the first attempt is the final one and the original
error is wrapped into the terminal ValueError. -/
theorem c2_no_retry_classification (op : Nat → Except PyExc (Option String)) (e : PyExc)
    (max_retries : Nat) (h0 : op 0 = .error e) (h2 : 2 ≤ max_retries) :
    query_gemini_api op max_retries =
      { result := .error (.nameError "name time is not defined"), attempts := 1, sleeps := 0 } ∧
    query_gemini_api op 1 =
      { result := .error (.valueError (wrapMsg 1 e)), attempts := 1, sleeps := 0 } := by
  constructor
  · unfold query_gemini_api
    rw [query_err_step op max_retries max_retries 0 e h0 (by omega)]
    rw [if_neg (by omega)]
  · unfold query_gemini_api
    rw [query_err_step op 1 1 0 e h0 (by omega)]
    rw [if_pos (by omega)]


/-- C2 witness: the amended statement applied to a concrete always-failing
quota operation. -/
theorem c2_witness :
    query_gemini_api alwaysQuotaErr 3 =
      { result := .error (.nameError "name time is not defined"), attempts := 1, sleeps := 0 } ∧
    query_gemini_api alwaysQuotaErr 1 =
      { result := .error (.valueError (wrapMsg 1 (.apiError "quota exceeded"))),
        attempts := 1, sleeps := 0 } :=
  c2_no_retry_classification alwaysQuotaErr (.apiError "quota exceeded") 3 rfl (by decide)

/-- C3 counterexample: an operation that succeeds immediately completes
with one attempt and zero completed sleeps, while the claim requires a
sleep of initial_delay times 2 to the power 0 to be paid before the first
attempt even when it succeeds. -/
theorem c3_counterexample :
    query_gemini_api (fun _ => .ok (some "hi")) 3 =
      { result := .ok "hi", attempts := 1, sleeps := 0 } := by decide

/-- C3 (amended): query_gemini_api has no initial_delay parameter and
never sleeps before an attempt; its only sleep expression runs after a
non-final failed attempt and raises NameError because time is not
imported, so for every operation and every retry budget the number of
completed backoff sleeps is zero; in particular no delay is ever paid when
the first attempt succeeds. -/
theorem c3_no_sleep_ever (op : Nat → Except PyExc (Option String)) (max_retries : Nat) :
    (query_gemini_api op max_retries).sleeps = 0 :=
  query_loop_sleeps op max_retries max_retries 0

/-- C9 counterexample: an operation that fails twice with a retryable
quota error and then succeeds, called with max_retries = 5, does not
return the success after three attempts: the sleep after the first failed
attempt raises NameError, so the call fails after exactly one attempt. -/
theorem c9_counterexample :
    query_gemini_api
      (fun n => if n < 2 then .error (.apiError "429 quota exceeded") else .ok (some "done")) 5 =
      { result := .error (.nameError "name time is not defined"), attempts := 1, sleeps := 0 } := by
  decide

/-- Inversion for ValueError results of the loop: any ValueError it
produces is either the fall-through no-valid-response message (line 50),
or the wrapped terminal error, which can only arise from the final
attempt raising after every remaining earlier attempt returned a falsy
response without raising. -/
theorem query_loop_wrap_only (op : Nat → Except PyExc (Option String)) (mr : Nat) :
    ∀ fuel a m, (query_loop op mr fuel a).result = .error (.valueError m) →
    m = "No valid response from the Gemini API" ∨
    ((∀ j, a ≤ j → j < mr - 1 → falsyOut (op j)) ∧
      ∃ e, op (mr - 1) = .error e ∧ m = wrapMsg mr e) := by
  intro fuel
  induction fuel with
  | zero =>
    intro a m h
    rw [query_loop] at h
    simp only [] at h
    exact Or.inl (PyExc.valueError.inj (Except.error.inj h)).symm
  | succ f ih =>
    intro a m h
    rw [query_loop] at h
    cases hop : op a with
    | ok resp =>
      cases resp with
      | some t =>
        rw [hop] at h
        simp only [] at h
        by_cases ht : t = ""
        · subst ht
          rw [if_pos rfl] at h
          simp only [] at h
          rcases ih (a + 1) m h with h1 | ⟨hpre, hwrap⟩
          · exact Or.inl h1
          · refine Or.inr ⟨?_, hwrap⟩
            intro j hj1 hj2
            rcases Nat.eq_or_lt_of_le hj1 with rfl | hj3
            · exact Or.inr hop
            · exact hpre j (by omega) hj2
        · rw [if_neg ht] at h
          simp only [] at h
          exact absurd h (by simp)
      | none =>
        rw [hop] at h
        simp only [] at h
        rcases ih (a + 1) m h with h1 | ⟨hpre, hwrap⟩
        · exact Or.inl h1
        · refine Or.inr ⟨?_, hwrap⟩
          intro j hj1 hj2
          rcases Nat.eq_or_lt_of_le hj1 with rfl | hj3
          · exact Or.inl hop
          · exact hpre j (by omega) hj2
    | error e =>
      rw [hop] at h
      simp only [] at h
      by_cases hfin : a = mr - 1
      · rw [if_pos hfin] at h
        simp only [] at h
        refine Or.inr ⟨fun j hj1 hj2 => absurd hj2 (by omega), e, ?_, ?_⟩
        · rw [← hfin]; exact hop
        · exact (PyExc.valueError.inj (Except.error.inj h)).symm
      · rw [if_neg hfin] at h
        simp only [time_sleep] at h
        exact absurd h (by simp)

/-- C9 (amended): the terminal ValueError of line 47, distinct from the
underlying API error, arises exactly when the final attempt raises after
every earlier attempt returned a falsy response without raising; in both
directions: such a run produces the wrapped terminal error, and any
ValueError result other than the fall-through no-valid-response message of
line 50 arises only from a falsy prefix followed by a final-attempt raise.
An operation that fails twice with a retryable error and then succeeds,
called with a retry budget of 5, never reaches its successful third
attempt but instead fails with NameError after exactly one attempt. -/
theorem c9_terminal_wrapping (op : Nat → Except PyExc (Option String)) (max_retries : Nat)
    (m : String) (hmr : 0 < max_retries)
    (hfal : ∀ j, j < max_retries - 1 → falsyOut (op j))
    (hlast : op (max_retries - 1) = .error (.apiError m)) :
    (query_gemini_api op max_retries).result =
      .error (.valueError (wrapMsg max_retries (.apiError m))) ∧
    PyExc.valueError (wrapMsg max_retries (.apiError m)) ≠ PyExc.apiError m ∧
    (∀ (op2 : Nat → Except PyExc (Option String)) (mr2 : Nat) (m2 : String),
      (query_gemini_api op2 mr2).result = .error (.valueError m2) →
      m2 = "No valid response from the Gemini API" ∨
      ((∀ j, j < mr2 - 1 → falsyOut (op2 j)) ∧
        ∃ e, op2 (mr2 - 1) = .error e ∧ m2 = wrapMsg mr2 e)) ∧
    query_gemini_api
      (fun n => if n < 2 then .error (.apiError "quota exhausted") else .ok (some "ok")) 5 =
      { result := .error (.nameError "name time is not defined"), attempts := 1, sleeps := 0 } := by
  refine ⟨?_, by simp, ?_, by decide⟩
  · unfold query_gemini_api
    rw [query_loop_skip op max_retries (max_retries - 1) max_retries 0
      (fun j h1 h2 => hfal j (by omega)) (by omega)]
    have e2 : 0 + (max_retries - 1) = max_retries - 1 := by omega
    rw [e2]
    rw [query_err_step op max_retries (max_retries - (max_retries - 1)) (max_retries - 1)
      (.apiError m) hlast (by omega)]
    rw [if_pos rfl]
  · intro op2 mr2 m2 h2
    rcases query_loop_wrap_only op2 mr2 mr2 0 m2 h2 with h1 | ⟨hpre, hwrap⟩
    · exact Or.inl h1
    · exact Or.inr ⟨fun j hj => hpre j (by omega) hj, hwrap⟩


/-- C9 witness: the amended statement applied to a concrete operation that
raises exactly on the final of 3 attempts. -/
theorem c9_witness :
    (query_gemini_api falsyThenErr 3).result = .error (.valueError (wrapMsg 3 (.apiError "boom"))) ∧
    PyExc.valueError (wrapMsg 3 (.apiError "boom")) ≠ PyExc.apiError "boom" :=
  And.intro
    (c9_terminal_wrapping falsyThenErr 3 "boom" (by decide) (by decide) (by decide)).1
    (c9_terminal_wrapping falsyThenErr 3 "boom" (by decide) (by decide) (by decide)).2.1

/-- C10: because the time module is never imported, whenever the first
attempt that raises an exception is not the final one (every earlier
attempt having returned a falsy response), the backoff sleep raises
NameError, so query_gemini_api never performs a delayed retry: it escapes
with NameError, having completed zero sleeps, right after that failing
attempt. -/
theorem c10_missing_time_import (op : Nat → Except PyExc (Option String))
    (max_retries k : Nat) (e : PyExc)
    (hfal : ∀ j, j < k → falsyOut (op j)) (hk : op k = .error e)
    (hnonfinal : k + 1 < max_retries) :
    query_gemini_api op max_retries =
      { result := .error (.nameError "name time is not defined"), attempts := k + 1, sleeps := 0 } := by
  unfold query_gemini_api
  rw [query_loop_skip op max_retries k max_retries 0 (fun j h1 h2 => hfal j (by omega)) (by omega)]
  have e2 : 0 + k = k := by omega
  rw [e2]
  rw [query_err_step op max_retries (max_retries - k) k e hk (by omega)]
  rw [if_neg (by omega)]
  simp [QueryOutcome.mk.injEq]
  omega


/-- C10 witness: attempt 0 returns a falsy response, attempt 1 raises with
2 attempts still allowed, and the call escapes as NameError after exactly
2 generate_content calls and 0 completed sleeps. -/
theorem c10_witness :
    query_gemini_api oneFalsyThenErr 3 =
      { result := .error (.nameError "name time is not defined"), attempts := 2, sleeps := 0 } :=
  c10_missing_time_import oneFalsyThenErr 3 1 (.apiError "x") (by decide) (by decide) (by decide)

/-!
Lemmas about the parsers.
-/

/-- A single character occurring as a substring is a member. -/
theorem mem_of_sub_single : ∀ (hay : List Char) (ch : Char),
    list_has_sub [ch] hay = true → ch ∈ hay := by
  intro hay
  induction hay with
  | nil => intro ch h; simp [list_has_sub, list_starts] at h
  | cons b t ih =>
    intro ch h
    simp only [list_has_sub, Bool.or_eq_true] at h
    rcases h with h1 | h1
    · simp only [list_starts, Bool.and_eq_true, beq_iff_eq] at h1
      exact List.mem_cons.mpr (Or.inl h1.1)
    · exact List.mem_cons.mpr (Or.inr (ih ch h1))

/-- Records accepted by the validation filter have exactly 4 options and a
correct letter among A, B, C, D. -/
theorem validQ_shape (q : PyQuestion) (h : validQ q = true) :
    (∃ os, q.options = some os ∧ os.length = 4) ∧
    (q.correct = some "A" ∨ q.correct = some "B" ∨ q.correct = some "C" ∨ q.correct = some "D") := by
  unfold validQ at h
  cases hos : q.options with
  | none => rw [hos] at h; exact absurd h (by simp)
  | some os =>
    cases hc : q.correct with
    | none => rw [hos, hc] at h; exact absurd h (by simp)
    | some c =>
      rw [hos, hc] at h
      rw [Bool.and_eq_true, Bool.and_eq_true] at h
      obtain ⟨h4, hsub, h1⟩ := h
      refine ⟨⟨os, rfl, by simpa using h4⟩, ?_⟩
      obtain ⟨cs⟩ := c
      have hlen : cs.length = 1 := by simpa using h1
      obtain ⟨ch, rfl⟩ : ∃ ch, cs = [ch] := by
        cases cs with
        | nil => simp at hlen
        | cons a t =>
          cases t with
          | nil => exact ⟨a, rfl⟩
          | cons b t2 => simp at hlen
      have hmem : ch ∈ ("ABCD".data) := mem_of_sub_single _ ch hsub
      have habcd : "ABCD".data = ['A', 'B', 'C', 'D'] := rfl
      rw [habcd] at hmem
      simp only [List.mem_cons, List.not_mem_nil, or_false] at hmem
      rcases hmem with rfl | rfl | rfl | rfl
      · exact Or.inl rfl
      · exact Or.inr (Or.inl rfl)
      · exact Or.inr (Or.inr (Or.inl rfl))
      · exact Or.inr (Or.inr (Or.inr rfl))

/-- Flush steps preserve the property that every already flushed card is a
non-empty dict: fc_step only ever appends the current card under its
truthiness guard. -/
theorem fc_step_truthy (cards : List Flashcard) (cur : Flashcard) (line : List Char)
    (h : ∀ c ∈ cards, fcTruthy c = true) :
    ∀ c ∈ (fc_step (cards, cur) line).1, fcTruthy c = true := by
  intro c hc
  unfold fc_step at hc
  by_cases hf : list_starts ("Front:".data) line = true
  · rw [if_pos hf] at hc
    by_cases ht : fcTruthy cur = true
    · simp only [ht, if_true] at hc
      rcases List.mem_append.mp hc with h1 | h1
      · exact h c h1
      · rw [List.mem_singleton.mp h1]; exact ht
    · simp only [ht, if_false] at hc
      exact h c hc
  · rw [if_neg hf] at hc
    by_cases hb : list_starts ("Back:".data) line = true
    · rw [if_pos hb] at hc
      exact h c hc
    · rw [if_neg hb] at hc
      exact h c hc

/-- Folding the flashcard loop preserves the invariant. -/
theorem fc_fold_truthy (lines : List (List Char)) :
    ∀ cards cur, (∀ c ∈ cards, fcTruthy c = true) →
    ∀ c ∈ (lines.foldl fc_step (cards, cur)).1, fcTruthy c = true := by
  induction lines with
  | nil => intro cards cur h; simpa using h
  | cons l ls ih =>
    intro cards cur h
    rw [List.foldl_cons]
    have hstep := fc_step_truthy cards cur l h
    have : fc_step (cards, cur) l = ((fc_step (cards, cur) l).1, (fc_step (cards, cur) l).2) := rfl
    rw [this]
    exact ih _ _ hstep

/-- C4 counterexample: a card whose back is still missing at end of stream
is included in the returned list, contradicting the claim that it is never
emitted. -/
theorem c4_counterexample :
    parse_flashcards "Front: Q" = [{ front := some "Q", back := none }] := by decide

/-- C4 (amended): every flashcard emitted by parse_flashcards is a
non-empty record (the empty in-progress dict is never flushed), but
completeness is not required: a card that is missing its back when the
next Front: marker arrives, or at end of stream, is included in the
returned list, because both flush sites are unconditional on completeness. -/
theorem c4_unconditional_flush :
    (∀ (response : String) (c : Flashcard), c ∈ parse_flashcards response → fcTruthy c = true) ∧
    parse_flashcards "Front: X\nFront: Z\nBack: W" =
      [{ front := some "X", back := none }, { front := some "Z", back := some "W" }] := by
  constructor
  · intro response c hc
    unfold parse_flashcards fc_finish at hc
    have hall := fc_fold_truthy (split_char '\n' (py_strip response.data)) []
      { front := none, back := none } (by intro c0 hc0; simp at hc0)
    by_cases ht : fcTruthy ((split_char '\n' (py_strip response.data)).foldl fc_step
        ([], { front := none, back := none })).2 = true
    · rw [if_pos ht] at hc
      rcases List.mem_append.mp hc with h1 | h1
      · exact hall c h1
      · rw [List.mem_singleton.mp h1]; exact ht
    · rw [if_neg ht] at hc
      exact hall c hc
  · decide

/-- C4 witness: the general part applied to a concrete response whose only
card lacks a back. -/
theorem c4_witness : fcTruthy { front := some "X", back := none } = true :=
  c4_unconditional_flush.1 "Front: X" { front := some "X", back := none } (by decide)

/-- C5: on the well-formed two-line record prefix that the prompt of
generate_test_questions itself requests, parse_test_questions raises
KeyError instead of returning a list: the first Q: line leaves the record
dict empty (the statement creating the new record sits inside the if
current_question: block, line 155), so the following option line
subscripts a dict with no options key. -/
theorem c5_keyerror_on_wellformed :
    parse_test_questions "Q: q\nA) x" = .error (.keyError "options") := by decide

/-- C6: every question in a list returned by parse_test_questions has
exactly 4 options and a correct letter that is one of A, B, C, D; a
flushed record with only 3 options is dropped, one with correct E is
dropped, and one with 4 options and correct B is kept. The concrete
inputs open with a Correct: seed line, which makes the record dict
non-empty so that the following Q: line actually starts a record (see C5). -/
theorem c6_question_validation :
    (∀ (response : String) (qs : List PyQuestion) (q : PyQuestion),
        parse_test_questions response = .ok qs → q ∈ qs →
        (∃ os, q.options = some os ∧ os.length = 4) ∧
        (q.correct = some "A" ∨ q.correct = some "B" ∨ q.correct = some "C" ∨
          q.correct = some "D")) ∧
    parse_test_questions "Correct: seed\nQ: q1\nA) a\nB) b\nC) c\nCorrect: A" = .ok [] ∧
    parse_test_questions "Correct: seed\nQ: q1\nA) a\nB) b\nC) c\nD) d\nCorrect: E" = .ok [] ∧
    parse_test_questions
        "Correct: seed\nQ: q2\nA) a\nB) b\nC) c\nD) d\nCorrect: B\nExplanation: because" =
      .ok [{ question := some "q2", options := some ["a", "b", "c", "d"], correct := some "B",
             explanation := some "because" }] := by
  refine ⟨?_, by decide, by decide, by decide⟩
  intro response qs q hparse hq
  unfold parse_test_questions at hparse
  cases htq : tq_go (split_char '\n' response.data) []
      { question := none, options := none, correct := none, explanation := none } with
  | error e => rw [htq] at hparse; exact absurd hparse (by simp)
  | ok st =>
    rw [htq] at hparse
    simp only [] at hparse
    have hqs := Except.ok.inj hparse
    rw [← hqs] at hq
    exact validQ_shape q (List.mem_filter.mp hq).2


/-- C6 witness: the general part applied to the concrete kept record. -/
theorem c6_witness :
    keptQuestion.correct = some "A" ∨ keptQuestion.correct = some "B" ∨
    keptQuestion.correct = some "C" ∨ keptQuestion.correct = some "D" :=
  (c6_question_validation.1
    "Correct: seed\nQ: q2\nA) a\nB) b\nC) c\nD) d\nCorrect: B\nExplanation: because"
    [keptQuestion] keptQuestion (by decide) (by decide)).2

/-- C8: the documented two-card input parses to exactly the two complete
cards. -/
theorem c8_two_cards :
    parse_flashcards "Front: X\nBack: Y\nFront: Z\nBack: W" =
      [{ front := some "X", back := some "Y" }, { front := some "Z", back := some "W" }] := by
  decide

/-!
Lemmas about the batch plan generator.
-/

/-- With no remaining days the schedule is empty, whatever the fuel. -/
theorem batch_schedule_fuel_zero_days : ∀ (fuel current_day : Nat),
    batch_schedule_fuel fuel current_day 0 = [] := by
  intro fuel cd
  cases fuel with
  | zero => rfl
  | succ f => rw [batch_schedule_fuel]; simp

/-- The schedule does not depend on the fuel once the fuel covers the
remaining days. -/
theorem batch_schedule_fuel_irrel :
    ∀ f1 f2 current_day total_days, total_days ≤ f1 → total_days ≤ f2 →
    batch_schedule_fuel f1 current_day total_days = batch_schedule_fuel f2 current_day total_days := by
  intro f1
  induction f1 with
  | zero =>
    intro f2 cd td h1 h2
    have htd : td = 0 := by omega
    subst htd
    rw [batch_schedule_fuel_zero_days, batch_schedule_fuel_zero_days]
  | succ n ih =>
    intro f2 cd td h1 h2
    by_cases htd : 0 < td
    · cases f2 with
      | zero => omega
      | succ g =>
        rw [batch_schedule_fuel, batch_schedule_fuel, if_pos htd, if_pos htd]
        congr 1
        exact ih g _ _ (by omega) (by omega)
    · have htd0 : td = 0 := by omega
      subst htd0
      rw [batch_schedule_fuel_zero_days, batch_schedule_fuel_zero_days]

/-- Recurrence satisfied by the batch schedule. -/
theorem batch_schedule_unfold (current_day total_days : Nat) :
    batch_schedule current_day total_days =
      if 0 < total_days then
        (current_day, min 30 total_days) ::
          batch_schedule (current_day + min 30 total_days) (total_days - min 30 total_days)
      else [] := by
  unfold batch_schedule
  cases htd : total_days with
  | zero => rw [batch_schedule_fuel_zero_days]; simp
  | succ t =>
    rw [batch_schedule_fuel, if_pos (by omega), if_pos (by omega)]
    congr 1
    exact batch_schedule_fuel_irrel t _ _ _ (by omega) (by omega)

/-- Whatever the world does, the issued batches are an initial segment of
the batch schedule, extending the already accumulated ones. -/
theorem plan_go_batches_prefix (world : String → Nat → Except PyExc (Option String))
    (course level api_key : String) :
    ∀ fuel total_days current_day pacc bacc, total_days ≤ fuel →
    ∃ B t, (plan_go world course level api_key fuel total_days current_day pacc bacc).batches =
        bacc ++ B ∧
      batch_schedule current_day total_days = B ++ t := by
  intro fuel
  induction fuel with
  | zero =>
    intro td cd pacc bacc hle
    have htd : td = 0 := by omega
    subst htd
    refine ⟨[], [], ?_, ?_⟩
    · rw [plan_go]; simp
    · rw [batch_schedule_unfold]; simp
  | succ f ih =>
    intro td cd pacc bacc hle
    by_cases htd : 0 < td
    · rw [plan_go, if_pos htd, batch_schedule_unfold, if_pos htd]
      split
      · exact ⟨[(cd, min 30 td)], batch_schedule (cd + min 30 td) (td - min 30 td), rfl, rfl⟩
      · rename_i response hresp
        split
        · obtain ⟨B, t, hB, hS⟩ := ih (td - min 30 td) (cd + min 30 td)
            (pacc ++ parse_topics response) (bacc ++ [(cd, min 30 td)]) (by omega)
          refine ⟨(cd, min 30 td) :: B, t, ?_, ?_⟩
          · rw [hB]; simp
          · rw [hS]; rfl
        · exact ⟨[(cd, min 30 td)], batch_schedule (cd + min 30 td) (td - min 30 td), rfl, rfl⟩
    · have htd0 : td = 0 := by omega
      subst htd0
      refine ⟨[], [], ?_, ?_⟩
      · rw [plan_go]; simp
      · rw [batch_schedule_unfold]; simp

/-- Every scheduled batch has a positive size of at most 30 days. -/
theorem batch_schedule_sizes :
    ∀ fuel total_days current_day, total_days ≤ fuel →
    ∀ p ∈ batch_schedule current_day total_days, 0 < p.2 ∧ p.2 ≤ 30 := by
  intro fuel
  induction fuel with
  | zero =>
    intro td cd hle p hp
    have htd : td = 0 := by omega
    subst htd
    rw [batch_schedule_unfold] at hp
    simp at hp
  | succ f ih =>
    intro td cd hle p hp
    by_cases htd : 0 < td
    · rw [batch_schedule_unfold, if_pos htd] at hp
      rcases List.mem_cons.mp hp with rfl | hp
      · have h2 : ((cd : Nat), min 30 td).2 = min 30 td := rfl
        rw [h2]
        omega
      · exact ih (td - min 30 td) (cd + min 30 td) (by omega) p hp
    · have htd0 : td = 0 := by omega
      subst htd0
      rw [batch_schedule_unfold] at hp
      simp at hp
/-- Each scheduled batch starts where the previous batches left off: at
the starting day plus the sum of the sizes of the preceding batches. -/
theorem batch_schedule_starts :
    ∀ fuel total_days current_day k, total_days ≤ fuel →
    k < (batch_schedule current_day total_days).length →
    ((batch_schedule current_day total_days).getD k (0, 0)).1 =
      current_day + ((((batch_schedule current_day total_days).take k).map Prod.snd).sum) := by
  intro fuel
  induction fuel with
  | zero =>
    intro td cd k hle hk
    have htd : td = 0 := by omega
    subst htd
    rw [batch_schedule_unfold] at hk
    simp at hk
  | succ f ih =>
    intro td cd k hle hk
    by_cases htd : 0 < td
    · rw [batch_schedule_unfold, if_pos htd] at hk ⊢
      cases k with
      | zero => simp
      | succ k2 =>
        rw [List.getD_cons_succ, List.take_succ_cons, List.map_cons, List.sum_cons]
        have hk2 : k2 < (batch_schedule (cd + min 30 td) (td - min 30 td)).length := by
          simpa using hk
        rw [ih (td - min 30 td) (cd + min 30 td) k2 (by omega) hk2]
        have h2 : ((cd : Nat), min 30 td).2 = min 30 td := rfl
        rw [h2]
        omega
    · have htd0 : td = 0 := by omega
      subst htd0
      rw [batch_schedule_unfold] at hk
      simp at hk

/-- The total length of the accumulated plan grows by exactly the
remaining days on every path that does not fail. -/
theorem plan_go_plan_length (world : String → Nat → Except PyExc (Option String))
    (course level api_key : String) :
    ∀ fuel total_days current_day pacc bacc, total_days ≤ fuel →
    (plan_go world course level api_key fuel total_days current_day pacc bacc).plan = [] ∨
    (plan_go world course level api_key fuel total_days current_day pacc bacc).plan.length =
      pacc.length + total_days := by
  intro fuel
  induction fuel with
  | zero =>
    intro td cd pacc bacc hle
    have htd : td = 0 := by omega
    subst htd
    right
    rw [plan_go]
    simp
  | succ f ih =>
    intro td cd pacc bacc hle
    by_cases htd : 0 < td
    · rw [plan_go, if_pos htd]
      split
      · left; rfl
      · rename_i response hresp
        split
        · rename_i hlen
          rcases ih (td - min 30 td) (cd + min 30 td) (pacc ++ parse_topics response)
              (bacc ++ [(cd, min 30 td)]) (by omega) with h | h
          · exact Or.inl h
          · right
            rw [h, List.length_append, hlen]
            omega
        · left; rfl
    · have htd0 : td = 0 := by omega
      subst htd0
      right
      rw [plan_go]
      simp

/-- C1: for every positive total_days, whatever the world returns,
generate_study_plan_in_batches either fails (reporting the error and
returning the empty plan, also when the failing batch is not the first, so
no partial plan is ever kept) or returns a plan of length exactly
total_days; it never returns a non-empty plan of the wrong length. -/
theorem c1_plan_all_or_nothing (world : String → Nat → Except PyExc (Option String))
    (course level api_key : String) (total_days : Nat) (h : 0 < total_days) :
    (generate_study_plan_in_batches world course total_days level api_key).plan = [] ∨
    (generate_study_plan_in_batches world course total_days level api_key).plan.length =
      total_days := by
  have hmain := plan_go_plan_length world course level api_key total_days total_days 1 [] []
    (Nat.le_refl total_days)
  simpa using hmain

/-- C1 witness: the theorem applied to a world that always fails. -/
theorem c1_witness :
    (generate_study_plan_in_batches failWorld "C" 1 "B" "k").plan = [] ∨
    (generate_study_plan_in_batches failWorld "C" 1 "B" "k").plan.length = 1 :=
  c1_plan_all_or_nothing failWorld "C" "B" "k" 1 (by decide)

/-- C7: the issued batch requests are always an initial segment of the
batch schedule from day 1; scheduled batches have positive size at most
30; batch k starts at day 1 plus the sum of the previous batch sizes; and
for total_days = 65 under a world that answers every prompt with a
well-formed response, exactly the 3 batches of sizes 30, 30, 5 starting at
days 1, 31, 61 are issued. -/
theorem c7_batch_partition :
    (∀ (world : String → Nat → Except PyExc (Option String)) (course level api_key : String)
        (total_days : Nat),
      ∃ t, batch_schedule 1 total_days =
        (generate_study_plan_in_batches world course total_days level api_key).batches ++ t) ∧
    (∀ total_days : Nat, ∀ p ∈ batch_schedule 1 total_days, 0 < p.2 ∧ p.2 ≤ 30) ∧
    (∀ total_days k : Nat, k < (batch_schedule 1 total_days).length →
      ((batch_schedule 1 total_days).getD k (0, 0)).1 =
        1 + ((((batch_schedule 1 total_days).take k).map Prod.snd).sum)) ∧
    (generate_study_plan_in_batches goodWorld "C" 65 "B" "key").batches =
      [(1, 30), (31, 30), (61, 5)] ∧
    batch_schedule 1 65 = [(1, 30), (31, 30), (61, 5)] := by
  refine ⟨?_, ?_, ?_, by decide, by decide⟩
  · intro world course level api_key td
    obtain ⟨B, t, hB, hS⟩ := plan_go_batches_prefix world course level api_key td td 1 [] []
      (Nat.le_refl td)
    refine ⟨t, ?_⟩
    rw [hS]
    unfold generate_study_plan_in_batches
    rw [hB]
    simp
  · intro td p hp
    exact batch_schedule_sizes td td 1 (Nat.le_refl td) p hp
  · intro td k hk
    exact batch_schedule_starts td td 1 k (Nat.le_refl td) hk

/-- C7 witness: the start formula applied to the third batch of the 65-day
schedule. -/
theorem c7_witness :
    ((batch_schedule 1 65).getD 2 (0, 0)).1 =
      1 + ((((batch_schedule 1 65).take 2).map Prod.snd).sum) :=
  c7_batch_partition.2.2.1 65 2 (by decide)
